import Mathlib

/-!
Verification of the wlink host-side WCH-Link programmer core.

Shallow embedding of the chip-family table (src/lib.rs), the DMI read
retry loop (src/dmi.rs), the data-endpoint packetizer (src/probe.rs),
the fast-program loop and the erase/attach orchestration
(src/operations.rs), and the response decoders (src/commands.rs,
src/commands/mod.rs).  Machine integers are modelled as `Nat` with
explicit `% 2^32` where wrap-around matters; fallible Rust code returns
an explicit result type; a slice-index panic is modelled as a dedicated
result constructor.
-/

namespace Wlink

/-! ### Chip family table, from src/lib.rs (`enum RiscvChip`) -/

inductive RiscvChip
  | CH32V103
  | CH57X
  | CH56X
  | CH32V20X
  | CH32V30X
  | CH582
  | CH32V003
  | CH8571
  | CH59X
  | CH643
  | CH32X035
  | CH32L103
  | CH641
  | CH585
  | Unknown0x0F
  | Unknown0x4E
  | Unknown0x46
  | Unknown0x86
  deriving DecidableEq

/-- `RiscvChip::support_flash_protect` from src/lib.rs. -/
def RiscvChip.support_flash_protect : RiscvChip → Bool
  | .CH32V103 | .CH32V20X | .CH32V30X | .CH32V003
  | .CH643 | .CH32L103 | .CH32X035 | .CH641 => true
  | _ => false

/-- `RiscvChip::code_flash_start` from src/lib.rs. -/
def RiscvChip.code_flash_start : RiscvChip → Nat
  | .CH56X | .CH57X | .CH582 | .CH585 | .CH59X | .CH8571 => 0x00000000
  | _ => 0x08000000

/-- `RiscvChip::write_pack_size` from src/lib.rs. -/
def RiscvChip.write_pack_size : RiscvChip → Nat
  | .CH32V003 | .CH641 => 1024
  | .Unknown0x4E => 1024
  | _ => 4096

/-- `RiscvChip::data_packet_size` from src/lib.rs. -/
def RiscvChip.data_packet_size : RiscvChip → Nat
  | .CH32V103 => 128
  | .CH32V003 | .CH641 => 64
  | _ => 256

/-- `RiscvChip::fix_code_flash_start` from src/lib.rs:
`let addr = self.code_flash_start() + start_address;
 if addr >= 0x10000000 { addr - 0x08000000 } else { addr }`.
The `u32` addition wraps, hence the explicit `% 2^32`. -/
def RiscvChip.fix_code_flash_start (c : RiscvChip) (start_address : Nat) : Nat :=
  let addr := (c.code_flash_start + start_address) % 2 ^ 32
  if 0x10000000 ≤ addr then addr - 0x08000000 else addr

/-! ### DMI read loop, from src/dmi.rs (`impl DebugModuleInterface for WchLink`) -/

/-- `DmiOpResponse` from src/commands.rs: `(addr: u8, data: u32, op: u8)`. -/
structure DmiOpResponse where
  addr : Nat
  data : Nat
  op : Nat
  deriving DecidableEq

/-- `DmiOpResponse::is_busy`: `self.op == 0x03`. -/
def DmiOpResponse.is_busy (r : DmiOpResponse) : Bool := r.op = 0x03

/-- `DmiOpResponse::is_success`: `self.op == 0x00`. -/
def DmiOpResponse.is_success (r : DmiOpResponse) : Bool := r.op = 0x00

/-- The dedicated not-attached sentinel tested first in `dmi_read`:
`resp.op == 0x03 && resp.data == 0xffffffff && resp.addr == 0x7d`. -/
def DmiOpResponse.is_sentinel (r : DmiOpResponse) : Bool :=
  r.op = 0x03 && r.data = 0xffffffff && r.addr = 0x7d

/-- Possible outcomes of `dmi_read` (`Ok(data)` or one of the error
variants of `wlink::Error` it produces). -/
inductive DmiOut
  | ok (data : Nat)
  | notAttached
  | timeout
  | dmiFailed
  deriving DecidableEq

/-- One iteration of the `dmi_read` loop from src/dmi.rs, lines 48-68.
`resps i` is the response returned by the probe for the `i`-th issued
`DmiOp::read`; `n` is the retry counter of the source (`let mut n = 0`).
Because the loop only continues through the busy branch, which increments
`n`, the response index always equals `n`.  `budget` is a structural
termination measure kept equal to `101 - n`; its zero branch is
unreachable, since the source returns `Timeout` as soon as `n > 100`. -/
def dmiReadGo (resps : Nat → DmiOpResponse) : Nat → Nat → DmiOut
  | budget, n =>
    let resp := resps n
    if resp.op = 0x03 ∧ resp.data = 0xffffffff ∧ resp.addr = 0x7d then
      .notAttached
    else if resp.op = 0x00 then
      .ok resp.data
    else if 100 < n then
      .timeout
    else if resp.op = 0x03 then
      match budget with
      | 0 => .timeout
      | b + 1 => dmiReadGo resps b (n + 1)
    else
      .dmiFailed

/-- `dmi_read` from src/dmi.rs: run the retry loop with `n = 0`. -/
def dmi_read (resps : Nat → DmiOpResponse) : DmiOut :=
  dmiReadGo resps 101 0

/-- Responses that keep the `dmi_read` loop running: busy (`op = 3`) but
not the not-attached sentinel. -/
def busyNonSentinel (r : DmiOpResponse) : Prop :=
  r.op = 0x03 ∧ ¬(r.data = 0xffffffff ∧ r.addr = 0x7d)

instance (r : DmiOpResponse) : Decidable (busyNonSentinel r) := by
  unfold busyNonSentinel; infer_instance

/-! ### Error type, from src/error.rs (`enum Error`), payload-free where
the payload does not matter to the claims -/

inductive WlinkError
  | custom (msg : String)
  | probeNotFound
  | probeModeNotSupported
  | unsupportedChip (c : RiscvChip)
  | unknownChip (b : Nat)
  | notAttached
  | chipMismatch (expected got : RiscvChip)
  | protocol (reason : Nat) (raw : List Nat)
  | invalidPayloadLength
  | invalidPayload
  | dmiFailed
  | timeout
  deriving DecidableEq

/-- `Result<T>` of the source: ok value or a `wlink::Error`. -/
inductive PResult (α : Type)
  | ok (a : α)
  | err (e : WlinkError)
  deriving DecidableEq

/-! ### Data-endpoint packetizer, from src/probe.rs
(`WchLink::write_data_with_progress`, lines 231-248):
`for chunk in buf.chunks(packet_len) { ...; if chunk.len() < packet_len
{ chunk.resize(packet_len, 0xff); } write_endpoint(DATA_ENDPOINT_OUT, &chunk) }`.
The fuel argument is a structural termination measure; `buf.length` fuel
always suffices because every step drops at least one element when
`0 < s`. -/
def writeDataGo (s : Nat) : Nat → List Nat → List (List Nat)
  | 0, _ => []
  | _, [] => []
  | fuel + 1, l => (l.take s ++ List.replicate (s - l.length) 0xff) :: writeDataGo s fuel (l.drop s)

/-- The sequence of packets written on the data-OUT endpoint for payload
`buf` and packet size `s`. -/
def write_data_packets (s : Nat) (buf : List Nat) : List (List Nat) :=
  writeDataGo s buf.length buf

/-- `data.chunks(write_pack_size)` of the fast-program loop: split into
chunks of `s` without padding (the final chunk may be shorter). -/
def chunksOfGo (s : Nat) : Nat → List Nat → List (List Nat)
  | 0, _ => []
  | _, [] => []
  | fuel + 1, l => l.take s :: chunksOfGo s fuel (l.drop s)

def chunksOf (s : Nat) (l : List Nat) : List (List Nat) :=
  chunksOfGo s l.length l

/-! ### Fast-program loop, from src/operations.rs (`WchLink::write_flash`,
lines 384-404) -/

/-- The 4-byte acknowledgement read with `read_data_endpoint(4)` after
each streamed chunk (e.g. `41 01 01 04`). -/
structure Ack where
  b0 : Nat
  b1 : Nat
  b2 : Nat
  b3 : Nat
  deriving DecidableEq

/-- Observable data-endpoint traffic of the fast-program loop. -/
inductive FlashEv
  | writeChunk (c : List Nat)
  | readAck (a : Ack)
  deriving DecidableEq

/-- The `for chunk in data.chunks(write_pack_size)` loop of `write_flash`:
stream the chunk on the data-OUT endpoint, read a 4-byte acknowledgement
on the data-IN endpoint (`acks i` is the `i`-th acknowledgement), and
return an error immediately when its byte 3 is not `0x04`. -/
def fastProgram (acks : Nat → Ack) : List (List Nat) → Nat → List FlashEv × PResult Unit
  | [], _ => ([], .ok ())
  | c :: cs, i =>
    if (acks i).b3 = 0x04 then
      let rest := fastProgram acks cs (i + 1)
      (.writeChunk c :: .readAck (acks i) :: rest.1, rest.2)
    else
      ([.writeChunk c, .readAck (acks i)], .err (.custom "Error while fastprogram"))

/-- The fast-program phase of `write_flash(data, _)` for chip family
`fam`: the user payload is cut into `write_pack_size` chunks. -/
def write_flash_fastprogram (fam : RiscvChip) (data : List Nat) (acks : Nat → Ack) :
    List FlashEv × PResult Unit :=
  fastProgram acks (chunksOf fam.write_pack_size data) 0

/-! ### Erase orchestration, from src/operations.rs (`WchLink::erase_flash`,
lines 311-333) -/

/-- Probe commands issued by `erase_flash`; `protectFlash b` stands for a
call of the `protect_flash(b)` subroutine. -/
inductive EraseEv
  | checkReadProtect
  | protectFlash (protect : Bool)
  | eraseFlash
  | attachChip
  deriving DecidableEq

/-- `erase_flash` from src/operations.rs.  `checkResp` is the status byte
returned by `ConfigChip::CheckReadProtect` (`FLAG_PROTECTED = 0x01`).
The source unprotects when the byte is `0x01` or `0x02` and only logs
`Unknown flash protect status` otherwise; it then sends
`Program::EraseFlash` followed by `AttachChip`. -/
def erase_flash (fam : RiscvChip) (checkResp : Nat) : List EraseEv × PResult Unit :=
  if fam.support_flash_protect then
    let protEvs :=
      if checkResp = 0x01 then [EraseEv.protectFlash false]
      else if checkResp = 2 then [EraseEv.protectFlash false]
      else []
    (EraseEv.checkReadProtect :: protEvs ++ [EraseEv.eraseFlash, EraseEv.attachChip], .ok ())
  else
    ([EraseEv.eraseFlash, EraseEv.attachChip], .ok ())

/-! ### Attach orchestration, from src/operations.rs (`WchLink::attach_chip`,
lines 29-100) -/

/-- Probe commands issued by `attach_chip`; `postInit fam` stands for the
family's `post_init` hook. -/
inductive AttachEv
  | getProbeInfo
  | setSpeed (riscvchip : RiscvChip)
  | attachChip
  | postInit (fam : RiscvChip)
  deriving DecidableEq

/-- The `for _ in 0..3` retry loop of `attach_chip`.  Each attempt sends
`SetSpeed(expected.unwrap_or(CH32V103))` then `AttachChip`; `resp i` is
the outcome of the `i`-th `AttachChip` (`some (family, chip_id)` on
success).  On success with an expected family the reported family must
match (`ChipMismatch` otherwise); with no expected family a second
`SetSpeed` keyed by the reported family is sent. -/
def attachGo (expected : Option RiscvChip) (resp : Nat → Option (RiscvChip × Nat)) :
    Nat → Nat → List AttachEv × PResult (RiscvChip × Nat)
  | 0, _ => ([], .err .notAttached)
  | tries + 1, i =>
    let speedEv := AttachEv.setSpeed (expected.getD .CH32V103)
    match resp i with
    | some (fam, chipId) =>
      match expected with
      | some e =>
        if fam ≠ e then ([speedEv, .attachChip], .err (.chipMismatch e fam))
        else ([speedEv, .attachChip], .ok (fam, chipId))
      | none => ([speedEv, .attachChip, .setSpeed fam], .ok (fam, chipId))
    | none =>
      let rest := attachGo expected resp tries (i + 1)
      (speedEv :: .attachChip :: rest.1, rest.2)

/-- Epilogue of `attach_chip`: `chip_info.ok_or(Error::NotAttached)?`
then `chip_info.chip_family.post_init(self)?`. -/
def attachFinish (expected : Option RiscvChip) (resp : Nat → Option (RiscvChip × Nat)) :
    List AttachEv × PResult (RiscvChip × Nat) :=
  let r := attachGo expected resp 3 0
  match r.2 with
  | .ok (fam, chipId) =>
    (AttachEv.getProbeInfo :: r.1 ++ [AttachEv.postInit fam], .ok (fam, chipId))
  | .err e => (AttachEv.getProbeInfo :: r.1, .err e)

/-- `attach_chip` from src/operations.rs: query probe info, reject an
expected chip the probe variant does not support, run the retry loop,
then run the reported family's post-attach hook. -/
def attach_chip (expected : Option RiscvChip) (supports : RiscvChip → Bool)
    (resp : Nat → Option (RiscvChip × Nat)) : List AttachEv × PResult (RiscvChip × Nat) :=
  match expected with
  | some c =>
    if supports c then attachFinish expected resp
    else ([AttachEv.getProbeInfo], .err (.unsupportedChip c))
  | none => attachFinish none resp

/-! ### Response decoders, from src/commands.rs and src/commands/mod.rs -/

/-- `u32::from_be_bytes` / `u16::from_be_bytes` over a big-endian byte
list. -/
def u32_from_be (b : List Nat) : Nat :=
  b.foldl (fun acc x => acc * 256 + x) 0

/-- `u32::to_le_bytes` of a 32-bit value. -/
def u32_to_le_bytes (x : Nat) : List Nat :=
  [x % 256, x / 256 % 256, x / 256 ^ 2 % 256, x / 256 ^ 3 % 256]

/-- `ESignature` from src/commands/mod.rs: flash size in KB and the two
raw UID words. -/
structure ESignature where
  flash_size_kb : Nat
  uid0 : Nat
  uid1 : Nat
  deriving DecidableEq

/-- `ESignature::from_raw` from src/commands/mod.rs, lines 247-258:
reject responses shorter than 12 bytes, else read `flash_size_kb` from
bytes 2..4 (big-endian) and the UID words from bytes 4..8 and 8..12. -/
def esignature_from_raw (resp : List Nat) : PResult ESignature :=
  if resp.length < 12 then .err .invalidPayloadLength
  else
    .ok ⟨u32_from_be ((resp.drop 2).take 2),
         u32_from_be ((resp.drop 4).take 4),
         u32_from_be ((resp.drop 8).take 4)⟩

/-- `ChipUID::from_raw` from src/commands.rs, lines 229-251: responses of
12 bytes or fewer are rejected; a response starting `FF FF` yields the
eight UID bytes (each big-endian word re-emitted little-endian); any
other response yields the all-zero `Default` UID. -/
def chip_uid_from_raw (resp : List Nat) : PResult (List Nat) :=
  if resp.length ≤ 12 then .err .invalidPayloadLength
  else if resp.take 2 = [0xff, 0xff] then
    .ok (u32_to_le_bytes (u32_from_be ((resp.drop 4).take 4)) ++
         u32_to_le_bytes (u32_from_be ((resp.drop 8).take 4)))
  else .ok (List.replicate 8 0)

/-- The lowercase hex digit for `d < 16`: `0`-`9` are codepoints 48-57,
`a`-`f` are codepoints 97-102. -/
def hexDigitChar (d : Nat) : Char :=
  if d < 10 then Char.ofNat (48 + d) else Char.ofNat (87 + d)

/-- `format!("{:02x}", b)` for a byte value. -/
def byteToHex (b : Nat) : String :=
  String.mk [hexDigitChar (b / 16 % 16), hexDigitChar (b % 16)]

/-- The `Display` impl of `ChipUID`: hex bytes joined with `-`. -/
def formatUid (bytes : List Nat) : String :=
  String.intercalate "-" (bytes.map byteToHex)

/-- Outcome of running a decoder on a raw buffer: a slice-index panic, an
error return, or a parsed value. -/
inductive RunResult (α : Type)
  | panics
  | fails (e : WlinkError)
  | succeeds (a : α)
  deriving DecidableEq

/-- The generic `Response::from_raw` from src/commands/mod.rs, lines
30-55, with out-of-bounds indexing modelled as `panics`: `resp[0]` needs
length ≥ 1, `resp[1]` length ≥ 2, `resp[2]` and `resp[3..]` length ≥ 3.
The source's redundant `reason == 0x55` early return produces the same
`Protocol` error as the fall-through and is folded into it. -/
def response_from_raw {α : Type} (from_payload : List Nat → PResult α)
    (resp : List Nat) : RunResult α :=
  if resp.length = 0 then .panics
  else if resp.getD 0 0 = 0x81 then
    if resp.length < 2 then .panics
    else if resp.length < 3 then .panics
    else if resp.getD 2 0 ≠ resp.length - 3 then .fails .invalidPayloadLength
    else .fails (.protocol (resp.getD 1 0) resp)
  else if resp.getD 0 0 = 0x82 then
    if resp.length < 3 then .panics
    else if resp.getD 2 0 ≠ resp.length - 3 then .fails .invalidPayloadLength
    else
      match from_payload ((resp.drop 3).take (resp.getD 2 0)) with
      | .ok a => .succeeds a
      | .err e => .fails e
  else .fails .invalidPayload

/-- `<Vec<u8> as Response>::from_payload`: the payload itself. -/
def vec_from_payload (bytes : List Nat) : PResult (List Nat) := .ok bytes

/-! ### Concrete wire data used to evaluate the model -/

/-- The literal electronic-signature response
`FF FF 00 20 AE B4 AB CD 16 C6 BC 45 E3 39 E3 39 E3 39 E3 39`. -/
def esigRaw : List Nat :=
  [0xff, 0xff, 0x00, 0x20, 0xae, 0xb4, 0xab, 0xcd, 0x16, 0xc6, 0xbc, 0x45,
   0xe3, 0x39, 0xe3, 0x39, 0xe3, 0x39, 0xe3, 0x39]

/-- A busy DMI response that is not the not-attached sentinel. -/
def dmiBusyResp : DmiOpResponse := ⟨0x11, 0, 0x03⟩

/-- A failed (`op = 2`) DMI response. -/
def dmiFailResp : DmiOpResponse := ⟨0x11, 0, 0x02⟩

/-- Probe behaviour: 101 busy responses, then a failed response. -/
def dmiRetryStream : Nat → DmiOpResponse :=
  fun i => if i < 101 then dmiBusyResp else dmiFailResp

/-- Probe behaviour: two busy responses, then the not-attached sentinel. -/
def sentinelAfterBusy : Nat → DmiOpResponse :=
  fun i => if i < 2 then dmiBusyResp else ⟨0x7d, 0xffffffff, 0x03⟩

/-- Probe behaviour: immediate success with data 7. -/
def dmiOkStream : Nat → DmiOpResponse := fun _ => ⟨0x04, 7, 0x00⟩

/-! ## Theorems -/

set_option maxRecDepth 8000

/-- Stepping the `dmi_read` loop once through a busy, non-sentinel
response within the retry budget. -/
lemma dmiReadGo_busy_step (resps : Nat → DmiOpResponse) (b n : Nat)
    (h1 : busyNonSentinel (resps n)) (h2 : n ≤ 100) :
    dmiReadGo resps (b + 1) n = dmiReadGo resps b (n + 1) := by
  obtain ⟨hop, hns⟩ := h1
  rw [dmiReadGo.eq_def]
  dsimp only
  rw [if_neg (by rintro ⟨_, hd, ha⟩; exact hns ⟨hd, ha⟩)]
  rw [if_neg (by rw [hop]; omega)]
  rw [if_neg (by omega)]
  rw [if_pos hop]

/-- The `dmi_read` loop skips over any prefix of busy, non-sentinel
responses while the retry counter stays within the budget. -/
lemma dmiReadGo_skip (resps : Nat → DmiOpResponse) :
    ∀ k n, n + k ≤ 101 → (∀ i, i < k → busyNonSentinel (resps (n + i))) →
      dmiReadGo resps (101 - n) n = dmiReadGo resps (101 - (n + k)) (n + k) := by
  intro k
  induction k with
  | zero => intro n _ _; rfl
  | succ k ih =>
    intro n hle hbusy
    have h0 : busyNonSentinel (resps n) := by simpa using hbusy 0 (by omega)
    have hn : n ≤ 100 := by omega
    have e1 : 101 - n = (101 - (n + 1)) + 1 := by omega
    rw [e1, dmiReadGo_busy_step resps _ n h0 hn]
    have e2 : n + (k + 1) = (n + 1) + k := by omega
    rw [e2]
    exact ih (n + 1) (by omega) (fun i hi => by
      have := hbusy (i + 1) (by omega)
      have e3 : n + (i + 1) = n + 1 + i := by omega
      rwa [e3] at this)

/-- C2: whenever `dmi_read` receives the not-attached sentinel
`(op = 3, addr = 0x7D, data = 0xFFFFFFFF)` — on the first iteration or
after any number `k` of busy retries (every reachable iteration has
`k ≤ 101`) — it returns `NotAttached`: the sentinel test precedes both
the success test and the retry-budget test. -/
theorem dmi_read_sentinel_not_attached (resps : Nat → DmiOpResponse) (k : Nat)
    (hk : k ≤ 101) (hbusy : ∀ i, i < k → busyNonSentinel (resps i))
    (hs : (resps k).op = 0x03 ∧ (resps k).data = 0xffffffff ∧ (resps k).addr = 0x7d) :
    dmi_read resps = .notAttached := by
  have hskip := dmiReadGo_skip resps k 0 (by omega) (fun i hi => by simpa using hbusy i hi)
  unfold dmi_read
  rw [show dmiReadGo resps 101 0 = dmiReadGo resps (101 - 0) 0 from rfl, hskip]
  rw [dmiReadGo.eq_def]
  dsimp only
  simp only [Nat.zero_add]
  rw [if_pos hs]

/-- Witness for `dmi_read_sentinel_not_attached`: the sentinel after two
busy responses. -/
theorem dmi_read_sentinel_witness :
    (2 : Nat) ≤ 101 ∧ dmi_read sentinelAfterBusy = .notAttached :=
  ⟨by omega,
    dmi_read_sentinel_not_attached sentinelAfterBusy 2 (by omega) (by decide) (by decide)⟩

/-- C3 counterexample: a probe that answers busy 101 times and then
fails (`op = 2`).  All 101 busy responses are retried — exceeding the
claimed cap of 100 — and the subsequent failed response yields `Timeout`
rather than the `DmiFailed` the claim prescribes for a failed
response. -/
theorem dmi_read_retry_cap_counterexample :
    (∀ i, i < 101 → (dmiRetryStream i).is_busy = true ∧ busyNonSentinel (dmiRetryStream i)) ∧
    (dmiRetryStream 101).op = 0x02 ∧
    dmi_read dmiRetryStream = .timeout ∧
    dmi_read dmiRetryStream ≠ .dmiFailed := by
  decide

/-- C3 amended: `dmi_read` returns the data of the first successful
response; a busy response is retried while the retry counter is at most
100, so up to 101 busy retries occur; once the counter exceeds 100, the
next response that is neither successful nor the sentinel — busy or
failed alike — yields `Timeout`; a failed (`op ∉ {0, 3}`) response
within the budget yields `DmiFailed`. -/
theorem dmi_read_retry_behavior (resps : Nat → DmiOpResponse) :
    (∀ k, k ≤ 101 → (∀ i, i < k → busyNonSentinel (resps i)) → (resps k).op = 0x00 →
      dmi_read resps = .ok (resps k).data) ∧
    (∀ k, k ≤ 100 → (∀ i, i < k → busyNonSentinel (resps i)) →
      (resps k).op ≠ 0x00 → (resps k).op ≠ 0x03 →
      dmi_read resps = .dmiFailed) ∧
    ((∀ i, i < 101 → busyNonSentinel (resps i)) →
      ¬((resps 101).op = 0x03 ∧ (resps 101).data = 0xffffffff ∧ (resps 101).addr = 0x7d) →
      (resps 101).op ≠ 0x00 →
      dmi_read resps = .timeout) := by
  refine ⟨?_, ?_, ?_⟩
  · intro k hk hbusy hop
    have hskip := dmiReadGo_skip resps k 0 (by omega) (fun i hi => by simpa using hbusy i hi)
    unfold dmi_read
    rw [show dmiReadGo resps 101 0 = dmiReadGo resps (101 - 0) 0 from rfl, hskip]
    rw [dmiReadGo.eq_def]
    dsimp only
    simp only [Nat.zero_add]
    rw [if_neg (by rintro ⟨h3, _⟩; rw [hop] at h3; omega)]
    rw [if_pos hop]
  · intro k hk hbusy hop hbz
    have hskip := dmiReadGo_skip resps k 0 (by omega) (fun i hi => by simpa using hbusy i hi)
    unfold dmi_read
    rw [show dmiReadGo resps 101 0 = dmiReadGo resps (101 - 0) 0 from rfl, hskip]
    rw [dmiReadGo.eq_def]
    dsimp only
    simp only [Nat.zero_add]
    rw [if_neg (by rintro ⟨h3, _⟩; exact hbz h3)]
    rw [if_neg hop]
    rw [if_neg (by omega)]
    rw [if_neg hbz]
  · intro hbusy hns hop
    have hskip := dmiReadGo_skip resps 101 0 (by omega) (fun i hi => by simpa using hbusy i hi)
    unfold dmi_read
    rw [show dmiReadGo resps 101 0 = dmiReadGo resps (101 - 0) 0 from rfl, hskip]
    rw [dmiReadGo.eq_def]
    dsimp only
    simp only [Nat.zero_add]
    rw [if_neg hns]
    rw [if_neg hop]
    rw [if_pos (by omega)]

/-- Witness for `dmi_read_retry_behavior`: an immediately successful
response. -/
theorem dmi_read_retry_behavior_witness :
    dmi_read dmiOkStream = .ok 7 :=
  (dmi_read_retry_behavior dmiOkStream).1 0 (by omega)
    (fun i hi => absurd hi (by omega)) (by decide)

/-- C4 counterexample: for family CH32V103 (`flash_start = 0x0800_0000`)
and input address `0x0800_0000 < 0x1000_0000`, the claim predicts
`flash_start + addr = 0x1000_0000`, but `fix_code_flash_start` branches
on the sum `flash_start + addr` (which is `≥ 0x1000_0000` here) and
returns `0x0800_0000`. -/
theorem fix_code_flash_start_counterexample :
    (0x08000000 : Nat) < 0x10000000 ∧
    RiscvChip.code_flash_start .CH32V103 = 0x08000000 ∧
    RiscvChip.fix_code_flash_start .CH32V103 0x08000000 = 0x08000000 ∧
    RiscvChip.fix_code_flash_start .CH32V103 0x08000000 ≠
      RiscvChip.code_flash_start .CH32V103 + 0x08000000 := by
  decide

/-- C4 amended: `fix_code_flash_start(addr)` branches on the wrapping sum
`a = flash_start + addr` rather than on `addr`: when the sum does not
wrap it returns the sum itself if the sum is below `0x1000_0000`, and the
sum minus `0x0800_0000` otherwise. -/
theorem fix_code_flash_start_spec (c : RiscvChip) (addr : Nat)
    (h : c.code_flash_start + addr < 2 ^ 32) :
    c.fix_code_flash_start addr =
      if c.code_flash_start + addr < 0x10000000 then c.code_flash_start + addr
      else c.code_flash_start + addr - 0x08000000 := by
  simp only [RiscvChip.fix_code_flash_start, Nat.mod_eq_of_lt h]
  rcases Nat.lt_or_ge (c.code_flash_start + addr) 0x10000000 with h1 | h1
  · rw [if_neg (by omega), if_pos h1]
  · rw [if_pos h1, if_neg (by omega)]

/-- Witness for `fix_code_flash_start_spec` at family CH32V103 and
address `0x1000`. -/
theorem fix_code_flash_start_spec_witness :
    RiscvChip.code_flash_start .CH32V103 + 0x1000 < 2 ^ 32 ∧
    RiscvChip.fix_code_flash_start .CH32V103 0x1000 =
      if RiscvChip.code_flash_start .CH32V103 + 0x1000 < 0x10000000 then
        RiscvChip.code_flash_start .CH32V103 + 0x1000
      else RiscvChip.code_flash_start .CH32V103 + 0x1000 - 0x08000000 :=
  ⟨by decide, fix_code_flash_start_spec .CH32V103 0x1000 (by decide)⟩

/-- C7: parsing the literal 20-byte electronic-signature response yields
`flash_size_kb = 0x0020 = 32`, and the parsed UID bytes formatted as hex
joined with `-` equal `cd-ab-b4-ae-45-bc-c6-16`. -/
theorem esignature_parse_literal :
    esignature_from_raw esigRaw = .ok ⟨32, 0xaeb4abcd, 0x16c6bc45⟩ ∧
    chip_uid_from_raw esigRaw = .ok [0xcd, 0xab, 0xb4, 0xae, 0x45, 0xbc, 0xc6, 0x16] ∧
    formatUid [0xcd, 0xab, 0xb4, 0xae, 0x45, 0xbc, 0xc6, 0x16] = "cd-ab-b4-ae-45-bc-c6-16" :=
  ⟨rfl, rfl, rfl⟩

/-- C10: a chip-info response of at least 13 bytes that does not begin
`FF FF` parses successfully to the all-zero UID
(`00-00-00-00-00-00-00-00`); only a response of 12 bytes or fewer is
rejected, with `InvalidPayloadLength`. -/
theorem chip_uid_fallback (resp : List Nat) :
    (13 ≤ resp.length → resp.take 2 ≠ [0xff, 0xff] →
      chip_uid_from_raw resp = .ok (List.replicate 8 0) ∧
      formatUid (List.replicate 8 0) = "00-00-00-00-00-00-00-00") ∧
    (resp.length ≤ 12 → chip_uid_from_raw resp = .err .invalidPayloadLength) := by
  constructor
  · intro h1 h2
    refine ⟨?_, rfl⟩
    unfold chip_uid_from_raw
    rw [if_neg (by omega), if_neg h2]
  · intro h
    unfold chip_uid_from_raw
    rw [if_pos h]

/-- Witness for `chip_uid_fallback`: a 13-byte all-zero response parses
to the all-zero UID; the empty response is rejected. -/
theorem chip_uid_fallback_witness :
    (13 ≤ (List.replicate 13 (0 : Nat)).length ∧
      (List.replicate 13 (0 : Nat)).take 2 ≠ [0xff, 0xff] ∧
      chip_uid_from_raw (List.replicate 13 0) = .ok (List.replicate 8 0)) ∧
    (([] : List Nat).length ≤ 12 ∧
      chip_uid_from_raw [] = .err .invalidPayloadLength) :=
  ⟨⟨by decide, by decide,
      ((chip_uid_fallback (List.replicate 13 0)).1 (by decide) (by decide)).1⟩,
    ⟨by decide, (chip_uid_fallback []).2 (by decide)⟩⟩

/-- C9 counterexample: the one-byte buffer `[0x13]` is shorter than 3
bytes, yet `Response::from_raw` does not panic on it — the leading byte
is neither `0x81` nor `0x82`, so the final `else` returns
`InvalidPayload` before any further index is touched. -/
theorem response_from_raw_short_counterexample :
    ([0x13] : List Nat).length < 3 ∧
    response_from_raw vec_from_payload [0x13] = .fails .invalidPayload ∧
    response_from_raw vec_from_payload [0x13] ≠ .panics := by
  decide

/-- C9 amended: `Response::from_raw` performs only in-bounds indexing on
every buffer of at least 3 bytes; on a shorter buffer it panics exactly
when the buffer is empty or its first byte is `0x81` or `0x82` (e.g. a
zero-length bulk read), while a short buffer with any other first byte
returns `InvalidPayload` without panicking. -/
theorem response_from_raw_bounds {α : Type} (fp : List Nat → PResult α) (resp : List Nat) :
    (3 ≤ resp.length → response_from_raw fp resp ≠ .panics) ∧
    (resp.length < 3 →
      (response_from_raw fp resp = .panics ↔
        resp = [] ∨ resp.getD 0 0 = 0x81 ∨ resp.getD 0 0 = 0x82)) := by
  constructor
  · intro h3
    unfold response_from_raw
    rw [if_neg (by omega)]
    by_cases h81 : resp.getD 0 0 = 0x81
    · rw [if_pos h81, if_neg (by omega), if_neg (by omega)]
      split_ifs <;> simp
    · rw [if_neg h81]
      by_cases h82 : resp.getD 0 0 = 0x82
      · rw [if_pos h82, if_neg (by omega)]
        split_ifs
        · simp
        · split <;> simp
      · rw [if_neg h82]; simp
  · intro hlt
    unfold response_from_raw
    rcases resp with _ | ⟨a, rest⟩
    · simp
    · rcases rest with _ | ⟨b, rest2⟩
      · by_cases h81 : a = 0x81
        · simp [h81]
        · by_cases h82 : a = 0x82
          · simp [h81, h82]
          · simp [h81, h82]
      · rcases rest2 with _ | ⟨c, rest3⟩
        · by_cases h81 : a = 0x81
          · simp [h81]
          · by_cases h82 : a = 0x82
            · simp [h81, h82]
            · simp [h81, h82]
        · exact absurd hlt (by simp)

/-- Witness for `response_from_raw_bounds`: a 3-byte success frame does
not panic; the 1-byte buffer `[0x81]` panics. -/
theorem response_from_raw_bounds_witness :
    (3 ≤ ([0x82, 0, 0] : List Nat).length ∧
      response_from_raw vec_from_payload [0x82, 0, 0] ≠ .panics) ∧
    (([0x81] : List Nat).length < 3 ∧
      response_from_raw vec_from_payload [0x81] = .panics) :=
  ⟨⟨by decide, (response_from_raw_bounds vec_from_payload [0x82, 0, 0]).1 (by decide)⟩,
    ⟨by decide,
      ((response_from_raw_bounds vec_from_payload [0x81]).2 (by decide)).mpr
        (Or.inr (Or.inl (by decide)))⟩⟩

/-- C5 counterexample: for family CH32V103 (which supports flash
protection) and `CheckReadProtect` status byte `0x03` — neither `0x01`
(protected) nor `0x02` — `erase_flash` issues no unprotect at all before
`Program::EraseFlash`; it only logs the unknown status. -/
theorem erase_flash_unknown_status_counterexample :
    (3 : Nat) ≠ 0x01 ∧ (3 : Nat) ≠ 2 ∧
    RiscvChip.support_flash_protect .CH32V103 = true ∧
    (erase_flash .CH32V103 3).1 =
      [EraseEv.checkReadProtect, EraseEv.eraseFlash, EraseEv.attachChip] ∧
    EraseEv.protectFlash false ∉ (erase_flash .CH32V103 3).1 := by
  decide

/-- C5 amended: for a family that supports flash protection,
`erase_flash` queries the read-protect status first and unprotects
exactly when the status byte is `0x01` (protected) or `0x02`
(unprotected); on any other (unknown) status byte it only logs a warning
and proceeds; then it sends `Program::EraseFlash` followed by a
re-issued `AttachChip`. -/
theorem erase_flash_behavior (fam : RiscvChip) (checkResp : Nat) :
    (fam.support_flash_protect = true →
      erase_flash fam checkResp =
        (EraseEv.checkReadProtect ::
          (if checkResp = 0x01 ∨ checkResp = 2 then [EraseEv.protectFlash false] else []) ++
          [EraseEv.eraseFlash, EraseEv.attachChip], .ok ())) ∧
    (fam.support_flash_protect = false →
      erase_flash fam checkResp = ([EraseEv.eraseFlash, EraseEv.attachChip], .ok ())) := by
  constructor
  · intro hsup
    unfold erase_flash
    rw [if_pos hsup]
    by_cases h1 : checkResp = 0x01
    · simp [h1]
    · by_cases h2 : checkResp = 2
      · simp [h1, h2]
      · simp [h1, h2]
  · intro hsup
    unfold erase_flash
    rw [hsup]
    simp

/-- Witness for `erase_flash_behavior` at family CH32V103 with status
byte `0x02`. -/
theorem erase_flash_behavior_witness :
    RiscvChip.support_flash_protect .CH32V103 = true ∧
    erase_flash .CH32V103 2 =
      (EraseEv.checkReadProtect ::
        (if (2 : Nat) = 0x01 ∨ (2 : Nat) = 2 then [EraseEv.protectFlash false] else []) ++
        [EraseEv.eraseFlash, EraseEv.attachChip], .ok ()) :=
  ⟨by decide, (erase_flash_behavior .CH32V103 2).1 (by decide)⟩

/-- C6 counterexample: with expected family CH32V20X supplied and an
attach that succeeds immediately reporting CH32V20X, the whole command
trace contains exactly one `SetSpeed` — the one sent before
`AttachChip`.  No `SetSpeed` keyed by the reported family is re-sent
after the successful attach (the source only re-sends it when
`expected_chip.is_none()`), contradicting the claim that the re-send
happens whether or not an expected family was supplied. -/
theorem attach_chip_setspeed_counterexample :
    (attach_chip (some .CH32V20X) (fun _ => true) (fun _ => some (.CH32V20X, 777))).2 =
      .ok (.CH32V20X, 777) ∧
    (attach_chip (some .CH32V20X) (fun _ => true) (fun _ => some (.CH32V20X, 777))).1 =
      [.getProbeInfo, .setSpeed .CH32V20X, .attachChip, .postInit .CH32V20X] ∧
    (attach_chip (some .CH32V20X) (fun _ => true) (fun _ => some (.CH32V20X, 777))).1.count
      (AttachEv.setSpeed .CH32V20X) = 1 := by
  decide

/-- C6 amended: when `AttachChip` succeeds on attempt `k < 3` (after `k`
failed attempts), the reported family's post-attach hook always runs,
but `SetSpeed` keyed by the reported family is re-sent after the attach
only when the caller supplied no expected family; with a matching
expected family the only `SetSpeed` commands are the per-attempt ones
sent before each `AttachChip`. -/
theorem attach_chip_behavior (supports : RiscvChip → Bool)
    (resp : Nat → Option (RiscvChip × Nat)) (fam : RiscvChip) (chipId : Nat)
    (k : Nat) (hk : k < 3) (hfail : ∀ i, i < k → resp i = none)
    (hsucc : resp k = some (fam, chipId)) :
    (attach_chip none supports resp =
      (AttachEv.getProbeInfo ::
        ((List.replicate k [AttachEv.setSpeed .CH32V103, AttachEv.attachChip]).flatten ++
          [AttachEv.setSpeed .CH32V103, AttachEv.attachChip,
           AttachEv.setSpeed fam, AttachEv.postInit fam]),
        .ok (fam, chipId))) ∧
    (supports fam = true →
      attach_chip (some fam) supports resp =
        (AttachEv.getProbeInfo ::
          ((List.replicate k [AttachEv.setSpeed fam, AttachEv.attachChip]).flatten ++
            [AttachEv.setSpeed fam, AttachEv.attachChip, AttachEv.postInit fam]),
          .ok (fam, chipId))) := by
  interval_cases k
  · constructor
    · simp [attach_chip, attachFinish, attachGo, hsucc]
    · intro hs
      simp [attach_chip, attachFinish, attachGo, hsucc, hs]
  · have h0 := hfail 0 (by omega)
    constructor
    · simp [attach_chip, attachFinish, attachGo, hsucc, h0]
    · intro hs
      simp [attach_chip, attachFinish, attachGo, hsucc, h0, hs]
  · have h0 := hfail 0 (by omega)
    have h1 := hfail 1 (by omega)
    constructor
    · simp [attach_chip, attachFinish, attachGo, hsucc, h0, h1]
    · intro hs
      simp [attach_chip, attachFinish, attachGo, hsucc, h0, h1, hs]

/-- Witness for `attach_chip_behavior`: one failed attempt, then success
reporting CH32V003. -/
theorem attach_chip_behavior_witness :
    (attach_chip none (fun _ => true)
        (fun i => if i = 0 then none else some (.CH32V003, 5)) =
      (AttachEv.getProbeInfo ::
        ((List.replicate 1 [AttachEv.setSpeed .CH32V103, AttachEv.attachChip]).flatten ++
          [AttachEv.setSpeed .CH32V103, AttachEv.attachChip,
           AttachEv.setSpeed .CH32V003, AttachEv.postInit .CH32V003]),
        .ok (.CH32V003, 5))) ∧
    (attach_chip (some .CH32V003) (fun _ => true)
        (fun i => if i = 0 then none else some (.CH32V003, 5)) =
      (AttachEv.getProbeInfo ::
        ((List.replicate 1 [AttachEv.setSpeed .CH32V003, AttachEv.attachChip]).flatten ++
          [AttachEv.setSpeed .CH32V003, AttachEv.attachChip,
           AttachEv.postInit .CH32V003]),
        .ok (.CH32V003, 5))) :=
  ⟨(attach_chip_behavior (fun _ => true)
      (fun i => if i = 0 then none else some (.CH32V003, 5)) .CH32V003 5 1
      (by omega) (by decide) (by decide)).1,
    (attach_chip_behavior (fun _ => true)
      (fun i => if i = 0 then none else some (.CH32V003, 5)) .CH32V003 5 1
      (by omega) (by decide) (by decide)).2 (by decide)⟩

/-- Padding a final short chunk never drops packets: `writeDataGo` on the
empty payload emits nothing. -/
lemma writeDataGo_nil (s f : Nat) : writeDataGo s f [] = [] := by
  cases f <;> rfl

/-- One packetizer step preserves the `ceil(len/s)*s` byte count. -/
lemma ceil_step (n s : Nat) (hs : 0 < s) (hn : 0 < n) :
    s + ((n - s + s - 1) / s) * s = ((n + s - 1) / s) * s := by
  rcases le_or_lt n s with h | h
  · have e0 : n - s = 0 := by omega
    have e1 : n + s - 1 = (n - 1) + s := by omega
    rw [e0, e1, Nat.add_div_right _ hs]
    have e2 : (0 + s - 1) / s = 0 := Nat.div_eq_of_lt (by omega)
    have e3 : (n - 1) / s = 0 := Nat.div_eq_of_lt (by omega)
    rw [e2, e3]
    omega
  · have e1 : n - s + s - 1 = n - 1 := by omega
    have e2 : n + s - 1 = (n - 1) + s := by omega
    rw [e1, e2, Nat.add_div_right _ hs]
    ring

/-- Packetizer invariants, proved by induction on the fuel (which bounds
the payload length). -/
lemma write_data_go_spec (s : Nat) (hs : 0 < s) :
    ∀ fuel l, l.length ≤ fuel →
      ((∀ c ∈ writeDataGo s fuel l, c.length = s) ∧
       (writeDataGo s fuel l).flatten.length = ((l.length + s - 1) / s) * s ∧
       (writeDataGo s fuel l).flatten.take l.length = l ∧
       (writeDataGo s fuel l).flatten.drop l.length =
         List.replicate ((writeDataGo s fuel l).flatten.length - l.length) 0xff) := by
  intro fuel
  induction fuel with
  | zero =>
    intro l hl
    have : l = [] := List.length_eq_zero.mp (by omega)
    subst this
    refine ⟨by simp [writeDataGo], ?_, by simp [writeDataGo], by simp [writeDataGo]⟩
    simp only [writeDataGo, List.flatten_nil, List.length_nil]
    have : (0 + s - 1) / s = 0 := Nat.div_eq_of_lt (by omega)
    rw [this]
    simp
  | succ f ih =>
    intro l hl
    rcases l with _ | ⟨a, l'⟩
    · refine ⟨by simp [writeDataGo], ?_, by simp [writeDataGo], by simp [writeDataGo]⟩
      simp only [writeDataGo, List.flatten_nil, List.length_nil]
      have : (0 + s - 1) / s = 0 := Nat.div_eq_of_lt (by omega)
      rw [this]
      simp
    · set L := a :: l' with hL
      have hLpos : 0 < L.length := by simp [hL]
      have hdroplen : (L.drop s).length = L.length - s := by simp
      have hfl : (L.drop s).length ≤ f := by
        rw [hdroplen]
        have : L.length ≤ f + 1 := hl
        omega
      obtain ⟨ihlen, ihtot, ihtake, ihdrop⟩ := ih (L.drop s) hfl
      have hunfold : writeDataGo s (f + 1) L =
          (L.take s ++ List.replicate (s - L.length) 0xff) :: writeDataGo s f (L.drop s) := rfl
      have htakelen : (L.take s).length = min s L.length := by simp
      have hpktlen : (L.take s ++ List.replicate (s - L.length) 0xff).length = s := by
        simp only [List.length_append, htakelen, List.length_replicate]
        omega
      have htot : (writeDataGo s (f + 1) L).flatten.length = ((L.length + s - 1) / s) * s := by
        rw [hunfold]
        simp only [List.flatten_cons, List.length_append, hpktlen]
        rw [ihtot, hdroplen]
        exact ceil_step L.length s hs hLpos
      refine ⟨?_, htot, ?_, ?_⟩
      · intro c hc
        rw [hunfold] at hc
        rcases List.mem_cons.mp hc with h | h
        · rw [h]; exact hpktlen
        · exact ihlen c h
      · rw [hunfold]
        simp only [List.flatten_cons]
        rcases le_or_lt L.length s with hcase | hcase
        · have e1 : L.take s = L := List.take_of_length_le hcase
          have e2 : L.drop s = [] := List.drop_of_length_le hcase
          rw [e1, e2, writeDataGo_nil]
          simp only [List.flatten_nil, List.append_nil, List.append_assoc]
          exact List.take_left L _
        · have e0 : s - L.length = 0 := by omega
          rw [e0]
          simp only [List.replicate_zero, List.append_nil]
          rw [List.take_append_eq_append_take]
          have e1 : (L.take s).length = s := by rw [htakelen]; omega
          rw [List.take_of_length_le (by rw [e1]; omega), e1]
          have e2 : L.length - s = (L.drop s).length := by omega
          rw [e2, ihtake]
          exact List.take_append_drop s L
      · rw [hunfold]
        simp only [List.flatten_cons]
        rcases le_or_lt L.length s with hcase | hcase
        · have e1 : L.take s = L := List.take_of_length_le hcase
          have e2 : L.drop s = [] := List.drop_of_length_le hcase
          rw [e1, e2, writeDataGo_nil]
          simp only [List.flatten_nil, List.append_nil]
          rw [List.drop_left]
          congr 1
          simp only [List.length_append, List.length_replicate]
          omega
        · have e0 : s - L.length = 0 := by omega
          rw [e0]
          simp only [List.replicate_zero, List.append_nil]
          rw [List.drop_append_eq_append_drop]
          have e1 : (L.take s).length = s := by rw [htakelen]; omega
          rw [List.drop_of_length_le (by rw [e1]; omega)]
          simp only [List.nil_append]
          rw [e1]
          have e2 : L.length - s = (L.drop s).length := by omega
          rw [e2, ihdrop]
          congr 1
          simp only [List.length_append, e1, hdroplen]
          omega

/-- C8: for any payload `p` and packet size `s > 0`, the data-OUT
endpoint sends packets of exactly `s` bytes totalling
`ceil(len(p)/s) * s` bytes; their concatenation begins with `p` and the
bytes past the end of `p` — all in the final packet — are `0xFF`. -/
theorem write_data_padding (p : List Nat) (s : Nat) (hs : 0 < s) :
    (∀ c ∈ write_data_packets s p, c.length = s) ∧
    (write_data_packets s p).flatten.length = ((p.length + s - 1) / s) * s ∧
    (write_data_packets s p).flatten.take p.length = p ∧
    (write_data_packets s p).flatten.drop p.length =
      List.replicate ((write_data_packets s p).flatten.length - p.length) 0xff :=
  write_data_go_spec s hs p.length p le_rfl

/-- Witness for `write_data_padding`: payload `[1, 2, 3]` with packet
size 2 (packets `[1, 2]` and `[3, 0xFF]`). -/
theorem write_data_padding_witness :
    (0 : Nat) < 2 ∧
    (write_data_packets 2 [1, 2, 3]).flatten.length =
      ((([1, 2, 3] : List Nat).length + 2 - 1) / 2) * 2 ∧
    (write_data_packets 2 [1, 2, 3]).flatten.take ([1, 2, 3] : List Nat).length = [1, 2, 3] ∧
    (write_data_packets 2 [1, 2, 3]).flatten.drop ([1, 2, 3] : List Nat).length =
      List.replicate ((write_data_packets 2 [1, 2, 3]).flatten.length -
        ([1, 2, 3] : List Nat).length) 0xff :=
  ⟨by decide, (write_data_padding [1, 2, 3] 2 (by decide)).2.1,
    (write_data_padding [1, 2, 3] 2 (by decide)).2.2.1,
    (write_data_padding [1, 2, 3] 2 (by decide)).2.2.2⟩

/-- Peeling the first index off a `flatMap` over `List.range`. -/
lemma range_flatMap_succ {α : Type} (f : Nat → List α) (n : Nat) :
    (List.range (n + 1)).flatMap f = f 0 ++ (List.range n).flatMap (fun j => f (j + 1)) := by
  rw [List.range_succ_eq_map]
  rw [List.flatMap_cons, List.flatMap_map]

/-- If the first `k` acknowledgements succeed and the `k`-th (0-based)
fails, the fast-program loop emits exactly one write and one 4-byte
acknowledgement read for each of the first `k + 1` chunks and then stops
with the fast-program error. -/
lemma fastProgram_abort (acks : Nat → Ack) :
    ∀ k (chunks : List (List Nat)) i, k < chunks.length →
      (∀ j, j < k → (acks (i + j)).b3 = 0x04) → (acks (i + k)).b3 ≠ 0x04 →
      fastProgram acks chunks i =
        ((List.range (k + 1)).flatMap
            (fun j => [FlashEv.writeChunk (chunks.getD j []), FlashEv.readAck (acks (i + j))]),
          .err (.custom "Error while fastprogram")) := by
  intro k
  induction k with
  | zero =>
    intro chunks i hlen _ hbad
    rcases chunks with _ | ⟨c, cs⟩
    · simp at hlen
    · have hbad' : ¬((acks i).b3 = 0x04) := by
        intro h
        exact hbad (by simpa using h)
      rw [fastProgram]
      rw [if_neg hbad']
      have h1 : (List.range 1) = [0] := rfl
      rw [h1]
      simp
  | succ k ih =>
    intro chunks i hlen hok hbad
    rcases chunks with _ | ⟨c, cs⟩
    · simp at hlen
    · have h0 : (acks i).b3 = 0x04 := by simpa using hok 0 (by omega)
      have hrec := ih cs (i + 1) (by simpa using hlen)
        (fun j hj => by
          have := hok (j + 1) (by omega)
          have e : i + (j + 1) = i + 1 + j := by omega
          rwa [e] at this)
        (by
          have e : i + (k + 1) = i + 1 + k := by omega
          rwa [e] at hbad)
      rw [fastProgram]
      rw [if_pos h0]
      dsimp only
      rw [hrec]
      conv_rhs => rw [range_flatMap_succ]
      have harg : (fun j => [FlashEv.writeChunk ((c :: cs).getD (j + 1) []),
            FlashEv.readAck (acks (i + (j + 1)))]) =
          (fun j => [FlashEv.writeChunk (cs.getD j []),
            FlashEv.readAck (acks (i + 1 + j))]) := by
        funext j
        have e : i + (j + 1) = i + 1 + j := by omega
        rw [List.getD_cons_succ, e]
      rw [harg]
      simp

/-- C1: in the fast-program phase of `write_flash`, if the first `k`
4-byte acknowledgements have byte 3 equal to `0x04` and the `k`-th does
not, the procedure returns an error immediately: the traffic is exactly
one data-OUT stream followed by one 4-byte data-IN read for each of the
first `k + 1` payload chunks — so the failing chunk is streamed once,
never retried, and no later chunk is streamed. -/
theorem write_flash_chunk_ack_abort (fam : RiscvChip) (data : List Nat) (acks : Nat → Ack)
    (k : Nat) (hk : k < (chunksOf fam.write_pack_size data).length)
    (hok : ∀ j, j < k → (acks j).b3 = 0x04) (hbad : (acks k).b3 ≠ 0x04) :
    write_flash_fastprogram fam data acks =
      ((List.range (k + 1)).flatMap
          (fun j => [FlashEv.writeChunk ((chunksOf fam.write_pack_size data).getD j []),
                     FlashEv.readAck (acks j)]),
        .err (.custom "Error while fastprogram")) := by
  have := fastProgram_abort acks k (chunksOf fam.write_pack_size data) 0 hk
    (fun j hj => by simpa using hok j hj) (by simpa using hbad)
  simpa [write_flash_fastprogram] using this

/-- Witness for `write_flash_chunk_ack_abort`: a one-chunk payload whose
first acknowledgement has byte 3 equal to `0x05`. -/
theorem write_flash_chunk_ack_abort_witness :
    (0 : Nat) < (chunksOf (RiscvChip.write_pack_size .CH32V003) [0xAB, 0xAB]).length ∧
    Ack.b3 ⟨0x41, 1, 1, 5⟩ ≠ 0x04 ∧
    write_flash_fastprogram .CH32V003 [0xAB, 0xAB] (fun _ => ⟨0x41, 1, 1, 5⟩) =
      ((List.range 1).flatMap
          (fun j => [FlashEv.writeChunk
              ((chunksOf (RiscvChip.write_pack_size .CH32V003) [0xAB, 0xAB]).getD j []),
            FlashEv.readAck ((fun _ => (⟨0x41, 1, 1, 5⟩ : Ack)) j)]),
        .err (.custom "Error while fastprogram")) :=
  ⟨by decide, by decide,
    write_flash_chunk_ack_abort .CH32V003 [0xAB, 0xAB] (fun _ => ⟨0x41, 1, 1, 5⟩) 0
      (by decide) (fun j hj => absurd hj (by omega)) (by decide)⟩

end Wlink

